import Mathlib

/-!
# ksync: the syncthing supervisor

A shallow embedding of `pkg/ksync/syncthing.go`.

The supervisor is effectful Go code.  It is embedded as pure functions that
take the environment (`Env`: configuration values, path functions and the
outcome of every operating-system call) and the receiver (`Syncthing`), and
return a `Result`: the receiver after the call, the effects performed in
program order (`Event`), the reader goroutines that were spawned (`Relay`)
and how the call ended (`Outcome`: a returned Go `error`, or a panic).
Read-only queries (`os.Stat`, `viper.GetInt`, ...) leave no event.

The effect of the reset on the files is read off the trace over a small
filesystem model (`FS`), and the generated messages of
`pkg/proto/ksync.pb.go` with their getters live in `Ksync.Proto`.
-/

set_option linter.unusedVariables false

namespace Ksync

/-! ## Data model -/

/-- Go `error` value, identified by its message. -/
structure GoError where
  msg : String
deriving DecidableEq, Repr

/-- The two logrus severities the supervisor uses. -/
inductive Level where
  | debug
  | warn
deriving DecidableEq, Repr

/-- The two output streams of a process. -/
inductive Stream where
  | stdout
  | stderr
deriving DecidableEq, Repr

/-- Values stored in `log.Fields` by this file: a string or a string slice. -/
inductive FieldValue where
  | str (s : String)
  | strs (ss : List String)
deriving DecidableEq, Repr

/-- Go `log.Fields`, kept as an association list. -/
abbrev Fields := List (String × FieldValue)

/-- One record handed to logrus: the fields of the entry, the severity of the
method that was called and the message. -/
structure LogRecord where
  fields : Fields
  level : Level
  msg : String
deriving DecidableEq, Repr

/-- A logrus `*Entry`: a logger carrying fixed fields. -/
structure Entry where
  Data : Fields
deriving DecidableEq, Repr

/-- `log.WithFields(fields)`. -/
def WithFields (fields : Fields) : Entry :=
  ⟨fields⟩

/-- `entry.Warn(arg)` called with one string argument. -/
def Entry.Warn (entry : Entry) (arg : String) : LogRecord :=
  ⟨entry.Data, Level.warn, arg⟩

/-- `entry.Debug(arg)` called with one string argument. -/
def Entry.Debug (entry : Entry) (arg : String) : LogRecord :=
  ⟨entry.Data, Level.debug, arg⟩

/-- Go `*os.Process`: a started process. -/
structure Process where
  Pid : Nat
deriving DecidableEq, Repr

/-- Go `*exec.Cmd`, with the fields this file reads: `Path`, `Args` and
`Process` (nil until `Start` succeeds). -/
structure Cmd where
  Path : String
  Args : List String
  Process : Option Process
deriving DecidableEq, Repr

/-- The supervisor: `type Syncthing struct { cmd *exec.Cmd }`. -/
structure Syncthing where
  cmd : Option Cmd
deriving DecidableEq, Repr

/-- `NewSyncthing()` returns `&Syncthing{}`: no command recorded. -/
def NewSyncthing : Syncthing :=
  { cmd := none }

/-- Effects of the supervisor on its surroundings, one per call made. -/
inductive Event where
  | removeAll (path : String)
  | resetConfig (path : String)
  | pipe (st : Stream)
  | go (st : Stream)
  | start (path : String) (args : List String)
  | log (r : LogRecord)
  | kill (pid : Nat)
  | wait (pid : Nat)
deriving DecidableEq, Repr

/-- How a call ends: it returns an `error` (nil is `none`) or it panics. -/
inductive Outcome where
  | ret (err : Option GoError)
  | panic
deriving DecidableEq, Repr

/-- What a reader will deliver to a line scanner: the successive lines, and
the error (nil at end of input) that ends the scan. -/
structure Reader where
  lines : List String
  err : Option GoError
deriving DecidableEq, Repr

/-- Go `*bufio.Scanner` with the default line splitting: the tokens still to
come, the error that `Err()` would report after them, and the current token. -/
structure Scanner where
  rest : List String
  err : Option GoError
  text : String
deriving DecidableEq, Repr

/-- `bufio.NewScanner(r)`. -/
def NewScanner (r : Reader) : Scanner :=
  ⟨r.lines, r.err, ""⟩

/-- `scanner.Scan()`: advances to the next token; false when none is left. -/
def Scanner.Scan (scanner : Scanner) : Bool × Scanner :=
  match scanner.rest with
  | [] => (false, { scanner with text := "" })
  | l :: ls => (true, { scanner with rest := ls, text := l })

/-- `scanner.Text()`. -/
def Scanner.Text (scanner : Scanner) : String :=
  scanner.text

/-- A spawned reader goroutine: the stream it drains and what it does with the
content of that stream (the list of sink invocations it makes). -/
structure Relay where
  stream : Stream
  run : Reader → List LogRecord

/-- Everything outside the supervisor: configuration, path functions, and the
outcome of each operating-system or library call. -/
structure Env where
  /-- `cli.ConfigPath()` -/
  ConfigPath : String
  /-- `viper.ConfigFileUsed()` -/
  ConfigFileUsed : String
  /-- `viper.GetInt(key)` -/
  GetInt : String → Int
  /-- `viper.GetString(key)` -/
  GetString : String → String
  /-- `filepath.Join(elem...)` -/
  Join : List String → String
  /-- `filepath.Dir(path)` -/
  Dir : String → String
  /-- the error of `os.Stat(path)` -/
  Stat : String → Option GoError
  /-- `os.RemoveAll(path)` -/
  RemoveAll : String → Option GoError
  /-- `syncthing.ResetConfig(path)` -/
  ResetConfig : String → Option GoError
  /-- the error of `cmd.StderrPipe()` -/
  StderrPipe : Option GoError
  /-- the error of `cmd.StdoutPipe()` -/
  StdoutPipe : Option GoError
  /-- `cmd.Start()` -/
  Start : Cmd → Option GoError
  /-- the process id given to a process that starts -/
  pid : Nat
  /-- `process.Kill()` -/
  Kill : Nat → Option GoError
  /-- the error of `process.Wait()` -/
  Wait : Nat → Option GoError

/-- The receiver after a call, the effects in program order, the reader
goroutines spawned, and how the call ended. -/
structure Result where
  state : Syncthing
  trace : List Event
  relays : List Relay
  out : Outcome

/-! ## The supervisor -/

/-- The goroutine body of `errHandler`:
`for scanner.Scan() { logger(scanner.Text()) }`. -/
def errHandlerLoop {α : Type} (logger : String → α) (scanner : Scanner) : List α :=
  match h : scanner.Scan with
  | (false, _) => []
  | (true, sc) => logger sc.Text :: errHandlerLoop logger sc
termination_by scanner.rest.length
decreasing_by
  simp only [Scanner.Scan] at h
  split at h
  · simp at h
  · rename_i l ls hrest
    simp only [Prod.mk.injEq, true_and] at h
    subst h
    simp [hrest]

/-- The goroutine body of `lineHandler`:
`for scanner.Scan() { line := scanner.Text(); logger(line) }`. -/
def lineHandlerLoop {α : Type} (logger : String → α) (scanner : Scanner) : List α :=
  match h : scanner.Scan with
  | (false, _) => []
  | (true, sc) =>
    let line := sc.Text
    logger line :: lineHandlerLoop logger sc
termination_by scanner.rest.length
decreasing_by
  simp only [Scanner.Scan] at h
  split at h
  · simp at h
  · rename_i l ls hrest
    simp only [Prod.mk.injEq, true_and] at h
    subst h
    simp [hrest]

/-- `errHandler(logger)`: takes the stderr pipe of `s.cmd`, and spawns the
goroutine that feeds each scanned line to `logger`. -/
def errHandler (env : Env) (s : Syncthing) (logger : String → LogRecord) : Result :=
  match s.cmd with
  | none => ⟨s, [], [], Outcome.panic⟩
  | some _ =>
    match env.StderrPipe with
    | some err => ⟨s, [Event.pipe Stream.stderr], [], Outcome.ret (some err)⟩
    | none =>
      ⟨s, [Event.pipe Stream.stderr, Event.go Stream.stderr],
        [⟨Stream.stderr, fun stderr => errHandlerLoop logger (NewScanner stderr)⟩],
        Outcome.ret none⟩

/-- `lineHandler(logger)`: the same on the stdout pipe. -/
def lineHandler (env : Env) (s : Syncthing) (logger : String → LogRecord) : Result :=
  match s.cmd with
  | none => ⟨s, [], [], Outcome.panic⟩
  | some _ =>
    match env.StdoutPipe with
    | some err => ⟨s, [Event.pipe Stream.stdout], [], Outcome.ret (some err)⟩
    | none =>
      ⟨s, [Event.pipe Stream.stdout, Event.go Stream.stdout],
        [⟨Stream.stdout, fun stdout => lineHandlerLoop logger (NewScanner stdout)⟩],
        Outcome.ret none⟩

/-- `initLogs()`. -/
def initLogs (env : Env) (s : Syncthing) : Result :=
  let logger := WithFields [("name", FieldValue.str "syncthing")]
  let r1 := errHandler env s logger.Warn
  match r1.out with
  | Outcome.ret none =>
    let r2 := lineHandler env r1.state logger.Debug
    ⟨r2.state, r1.trace ++ r2.trace, r1.relays ++ r2.relays, r2.out⟩
  | _ => r1

/-- `binPath()`. -/
def binPath (env : Env) (_s : Syncthing) : String :=
  env.Join [env.ConfigPath, "bin", "syncthing"]

/-- `HasBinary()`. -/
def HasBinary (env : Env) (s : Syncthing) : Bool :=
  match env.Stat (binPath env s) with
  | some _ => false
  | none => true

/-- `resetState()`. -/
def resetState (env : Env) (s : Syncthing) : Result :=
  let base := env.Join [env.ConfigPath, "syncthing"]
  match env.RemoveAll base with
  | some err => ⟨s, [Event.removeAll base], [], Outcome.ret (some err)⟩
  | none =>
    ⟨s, [Event.removeAll base, Event.resetConfig (env.Join [base, "config.xml"])], [],
      Outcome.ret (env.ResetConfig (env.Join [base, "config.xml"]))⟩

/-- `fmt.Sprintf("%d", n)` for a Go `int`. -/
def fmtD (n : Int) : String :=
  toString n

/-- `exec.Command(name, arg...)` for a name with a directory part (no lookup
in PATH): `Args` holds the name followed by the arguments. -/
def Command (name : String) (arg : List String) : Cmd :=
  { Path := name, Args := name :: arg, Process := none }

/-- The `path` local of `Run()`. -/
def runPath (env : Env) : String :=
  env.Join [env.Dir env.ConfigFileUsed, "bin", "syncthing"]

/-- The `cmdArgs` local of `Run()`. -/
def runCmdArgs (env : Env) : List String :=
  let address := "localhost:" ++ fmtD (env.GetInt "syncthing-port")
  [ "-gui-address", address,
    "-gui-apikey", env.GetString "apikey",
    "-home", env.Join [env.Dir env.ConfigFileUsed, "syncthing"],
    "-no-browser" ]

/-- `s.cmd.Start()`. -/
def cmdStart (env : Env) (s : Syncthing) : Result :=
  match s.cmd with
  | none => ⟨s, [], [], Outcome.panic⟩
  | some cmd =>
    match env.Start cmd with
    | some err => ⟨s, [Event.start cmd.Path cmd.Args], [], Outcome.ret (some err)⟩
    | none =>
      ⟨{ cmd := some { cmd with Process := some ⟨env.pid⟩ } },
        [Event.start cmd.Path cmd.Args], [], Outcome.ret none⟩

/-- The closing debug record of `Run()`. -/
def startingRecord (s : Syncthing) : List Event :=
  match s.cmd with
  | none => []
  | some cmd =>
    [Event.log ((WithFields [("cmd", FieldValue.str cmd.Path),
      ("args", FieldValue.strs cmd.Args)]).Debug "starting syncthing")]

/-- `Run()`. -/
def Run (env : Env) (s : Syncthing) : Result :=
  if !HasBinary env s then
    ⟨s, [], [], Outcome.ret (some ⟨"missing pre-requisites, run init to fix"⟩)⟩
  else
    let r1 := resetState env s
    match r1.out with
    | Outcome.ret none =>
      let path := runPath env
      let cmdArgs := runCmdArgs env
      let s1 : Syncthing := { r1.state with cmd := some (Command path cmdArgs) }
      let r2 := initLogs env s1
      match r2.out with
      | Outcome.ret none =>
        let r3 := cmdStart env r2.state
        match r3.out with
        | Outcome.ret none =>
          ⟨r3.state, r1.trace ++ r2.trace ++ r3.trace ++ startingRecord r3.state,
            r2.relays, Outcome.ret none⟩
        | out => ⟨r3.state, r1.trace ++ r2.trace ++ r3.trace, r2.relays, out⟩
      | out => ⟨r2.state, r1.trace ++ r2.trace, r2.relays, out⟩
    | out => ⟨r1.state, r1.trace, [], out⟩

/-- `Stop()`: `defer s.cmd.Process.Wait()` then `return s.cmd.Process.Kill()`.
Reading `s.cmd.Process` on a nil `cmd` panics at the defer statement; calling
`Kill` on a nil process panics inside it, and so does the deferred `Wait`. -/
def Stop (env : Env) (s : Syncthing) : Result :=
  match s.cmd with
  | none => ⟨s, [], [], Outcome.panic⟩
  | some cmd =>
    match cmd.Process with
    | none => ⟨s, [], [], Outcome.panic⟩
    | some process =>
      let err := env.Kill process.Pid
      let _waitErr := env.Wait process.Pid
      ⟨s, [Event.kill process.Pid, Event.wait process.Pid], [], Outcome.ret err⟩

/-! ## The filesystem under the effects of the supervisor -/

/-- The files of a filesystem, each with its path and content; directories
are implicit in the paths. -/
abbrev FS := List (String × String)

/-- Whether `path` is `dir` itself or lies below it. -/
def isWithin (dir path : String) : Bool :=
  decide (path = dir) || (dir ++ "/").data.isPrefixOf path.data

/-- The files at or below `dir`. -/
def dirContents (dir : String) (fs : FS) : FS :=
  fs.filter (fun file => isWithin dir file.1)

/-- A successful `os.RemoveAll(path)`: the path and everything below it is
gone, the rest is untouched. -/
def removeAllFS (path : String) (fs : FS) : FS :=
  fs.filter (fun file => !isWithin path file.1)

/-- Modelled from the spec: `syncthing.ResetConfig(path)` of package
`pkg/syncthing`, which is not among the sources.  The spec has it regenerate
a fresh default configuration file at the given path; a successful call
leaves at `path` one file holding the default configuration `config`, and
touches no other file. -/
def resetConfigFS (config : String) (path : String) (fs : FS) : FS :=
  (path, config) :: fs.filter (fun file => decide (file.1 ≠ path))

/-- The effect on the filesystem of one successful call of the supervisor:
only the two steps of the reset write to it. -/
def applyEvent (config : String) (fs : FS) (e : Event) : FS :=
  match e with
  | Event.removeAll path => removeAllFS path fs
  | Event.resetConfig path => resetConfigFS config path fs
  | _ => fs

/-- The filesystem after a trace of successful calls. -/
def fsAfter (config : String) (fs : FS) (trace : List Event) : FS :=
  trace.foldl (applyEvent config) fs

/-! ## The generated messages of `pkg/proto/ksync.pb.go`

A Go pointer, map or slice is an `Option`, with `none` for nil.  A getter has
a pointer receiver, which may be nil. -/

namespace Proto

/-- The message `SpecDetails`. -/
structure SpecDetails where
  Name : String
  ContainerName : String
  PodName : String
  Selector : String
  Namespace : String
  LocalPath : String
  RemotePath : String
  Reload : Bool
  LocalReadOnly : Bool
  RemoteReadOnly : Bool
  XXX_NoUnkeyedLiteral : Unit
  XXX_unrecognized : Option (List Nat)
  XXX_sizecache : Int
deriving DecidableEq, Repr

/-- The message `RemoteContainer`. -/
structure RemoteContainer where
  Id : String
  ContainerName : String
  NodeName : String
  PodName : String
  XXX_NoUnkeyedLiteral : Unit
  XXX_unrecognized : Option (List Nat)
  XXX_sizecache : Int
deriving DecidableEq, Repr

/-- The message `Service`. -/
structure Service where
  SpecDetails : Option SpecDetails
  RemoteContainer : Option RemoteContainer
  Status : String
  XXX_NoUnkeyedLiteral : Unit
  XXX_unrecognized : Option (List Nat)
  XXX_sizecache : Int
deriving DecidableEq, Repr

/-- The message `ServiceList`: `Items []*Service`. -/
structure ServiceList where
  Items : Option (List (Option Service))
  XXX_NoUnkeyedLiteral : Unit
  XXX_unrecognized : Option (List Nat)
  XXX_sizecache : Int
deriving DecidableEq, Repr

/-- The message `Spec`. -/
structure Spec where
  Details : Option SpecDetails
  Services : Option ServiceList
  Status : String
  XXX_NoUnkeyedLiteral : Unit
  XXX_unrecognized : Option (List Nat)
  XXX_sizecache : Int
deriving DecidableEq, Repr

/-- The message `SpecList`: `Items map[string]*Spec`, kept as the list of its
entries. -/
structure SpecList where
  Items : Option (List (String × Option Spec))
  XXX_NoUnkeyedLiteral : Unit
  XXX_unrecognized : Option (List Nat)
  XXX_sizecache : Int
deriving DecidableEq, Repr

/-- The message `Syncthing`. -/
structure Syncthing where
  Url : String
  XXX_NoUnkeyedLiteral : Unit
  XXX_unrecognized : Option (List Nat)
  XXX_sizecache : Int
deriving DecidableEq, Repr

/-- `(m *SpecList) GetItems()`. -/
def SpecList.GetItems (m : Option SpecList) : Option (List (String × Option Spec)) :=
  match m with
  | some m => m.Items
  | none => none

/-- `(m *Spec) GetDetails()`. -/
def Spec.GetDetails (m : Option Spec) : Option SpecDetails :=
  match m with
  | some m => m.Details
  | none => none

/-- `(m *Spec) GetServices()`. -/
def Spec.GetServices (m : Option Spec) : Option ServiceList :=
  match m with
  | some m => m.Services
  | none => none

/-- `(m *Spec) GetStatus()`. -/
def Spec.GetStatus (m : Option Spec) : String :=
  match m with
  | some m => m.Status
  | none => ""

/-- `(m *SpecDetails) GetName()`. -/
def SpecDetails.GetName (m : Option SpecDetails) : String :=
  match m with
  | some m => m.Name
  | none => ""

/-- `(m *SpecDetails) GetContainerName()`. -/
def SpecDetails.GetContainerName (m : Option SpecDetails) : String :=
  match m with
  | some m => m.ContainerName
  | none => ""

/-- `(m *SpecDetails) GetPodName()`. -/
def SpecDetails.GetPodName (m : Option SpecDetails) : String :=
  match m with
  | some m => m.PodName
  | none => ""

/-- `(m *SpecDetails) GetSelector()`. -/
def SpecDetails.GetSelector (m : Option SpecDetails) : String :=
  match m with
  | some m => m.Selector
  | none => ""

/-- `(m *SpecDetails) GetNamespace()`. -/
def SpecDetails.GetNamespace (m : Option SpecDetails) : String :=
  match m with
  | some m => m.Namespace
  | none => ""

/-- `(m *SpecDetails) GetLocalPath()`. -/
def SpecDetails.GetLocalPath (m : Option SpecDetails) : String :=
  match m with
  | some m => m.LocalPath
  | none => ""

/-- `(m *SpecDetails) GetRemotePath()`. -/
def SpecDetails.GetRemotePath (m : Option SpecDetails) : String :=
  match m with
  | some m => m.RemotePath
  | none => ""

/-- `(m *SpecDetails) GetReload()`. -/
def SpecDetails.GetReload (m : Option SpecDetails) : Bool :=
  match m with
  | some m => m.Reload
  | none => false

/-- `(m *SpecDetails) GetLocalReadOnly()`. -/
def SpecDetails.GetLocalReadOnly (m : Option SpecDetails) : Bool :=
  match m with
  | some m => m.LocalReadOnly
  | none => false

/-- `(m *SpecDetails) GetRemoteReadOnly()`. -/
def SpecDetails.GetRemoteReadOnly (m : Option SpecDetails) : Bool :=
  match m with
  | some m => m.RemoteReadOnly
  | none => false

/-- `(m *ServiceList) GetItems()`. -/
def ServiceList.GetItems (m : Option ServiceList) : Option (List (Option Service)) :=
  match m with
  | some m => m.Items
  | none => none

/-- `(m *Service) GetSpecDetails()`. -/
def Service.GetSpecDetails (m : Option Service) : Option Proto.SpecDetails :=
  match m with
  | some m => m.SpecDetails
  | none => none

/-- `(m *Service) GetRemoteContainer()`. -/
def Service.GetRemoteContainer (m : Option Service) : Option Proto.RemoteContainer :=
  match m with
  | some m => m.RemoteContainer
  | none => none

/-- `(m *Service) GetStatus()`. -/
def Service.GetStatus (m : Option Service) : String :=
  match m with
  | some m => m.Status
  | none => ""

/-- `(m *RemoteContainer) GetId()`. -/
def RemoteContainer.GetId (m : Option RemoteContainer) : String :=
  match m with
  | some m => m.Id
  | none => ""

/-- `(m *RemoteContainer) GetContainerName()`. -/
def RemoteContainer.GetContainerName (m : Option RemoteContainer) : String :=
  match m with
  | some m => m.ContainerName
  | none => ""

/-- `(m *RemoteContainer) GetNodeName()`. -/
def RemoteContainer.GetNodeName (m : Option RemoteContainer) : String :=
  match m with
  | some m => m.NodeName
  | none => ""

/-- `(m *RemoteContainer) GetPodName()`. -/
def RemoteContainer.GetPodName (m : Option RemoteContainer) : String :=
  match m with
  | some m => m.PodName
  | none => ""

/-- `(m *Syncthing) GetUrl()`. -/
def Syncthing.GetUrl (m : Option Syncthing) : String :=
  match m with
  | some m => m.Url
  | none => ""

end Proto

/-! ## Sample environments -/

/-- An environment in which every step of `Run()` succeeds. -/
def sampleEnv : Env :=
  { ConfigPath := "/home/dev/.ksync"
    ConfigFileUsed := "/home/dev/.ksync/ksync.yaml"
    GetInt := fun key => if key = "syncthing-port" then 8384 else 0
    GetString := fun key => if key = "apikey" then "ksync" else ""
    Join := fun elem => "/".intercalate elem
    Dir := fun _ => "/home/dev/.ksync"
    Stat := fun _ => none
    RemoveAll := fun _ => none
    ResetConfig := fun _ => none
    StderrPipe := none
    StdoutPipe := none
    Start := fun _ => none
    pid := 4242
    Kill := fun _ => none
    Wait := fun _ => none }

/-- The binary is not installed: `os.Stat` fails. -/
def noBinaryEnv : Env :=
  { sampleEnv with Stat := fun _ => some ⟨"stat: no such file or directory"⟩ }

/-- Removing the state directory fails. -/
def removeFailsEnv : Env :=
  { sampleEnv with RemoveAll := fun _ => some ⟨"unlinkat: permission denied"⟩ }

/-- Regenerating `config.xml` fails. -/
def resetConfigFailsEnv : Env :=
  { sampleEnv with ResetConfig := fun _ => some ⟨"open config.xml: permission denied"⟩ }

/-- The operating system refuses to start the process. -/
def startFailsEnv : Env :=
  { sampleEnv with Start := fun _ => some ⟨"fork/exec: exec format error"⟩ }

/-- Both the kill and the wait report an error. -/
def killFailsEnv : Env :=
  { sampleEnv with
    Kill := fun _ => some ⟨"os: process already finished"⟩
    Wait := fun _ => some ⟨"wait: no child processes"⟩ }

/-- A later moment of `sampleEnv`: the next process gets another id. -/
def laterEnv : Env :=
  { sampleEnv with pid := 4343 }

/-- A supervisor whose process is running. -/
def runningSyncthing : Syncthing :=
  { cmd := some { Path := "/home/dev/.ksync/bin/syncthing",
                  Args := ["/home/dev/.ksync/bin/syncthing", "-no-browser"],
                  Process := some ⟨4242⟩ } }

/-- A filesystem with stale daemon state and an unrelated file. -/
def staleFS : FS :=
  [("/home/dev/.ksync/syncthing/index-v0.14.0.db/000001.log", "stale index"),
    ("/home/dev/.ksync/syncthing/config.xml", "<configuration version=\"26\"/>"),
    ("/home/dev/.ksync/ksync.yaml", "apikey: ksync")]

/-- The configuration file in use does not lie in `cli.ConfigPath()`. -/
def splitConfigEnv : Env :=
  { sampleEnv with ConfigPath := "/etc/ksync" }

/-! ## Basic facts -/

theorem resetState_state (env : Env) (s : Syncthing) : (resetState env s).state = s := by
  simp only [resetState]
  split <;> rfl

theorem resetState_relays (env : Env) (s : Syncthing) : (resetState env s).relays = [] := by
  simp only [resetState]
  split <;> rfl

theorem resetState_out_ne_panic (env : Env) (s : Syncthing) :
    (resetState env s).out ≠ Outcome.panic := by
  simp only [resetState]
  split <;> simp

theorem resetState_trace_no_start (env : Env) (s : Syncthing) (path : String)
    (args : List String) : Event.start path args ∉ (resetState env s).trace := by
  simp only [resetState]
  split <;> simp

/-- Once the binary is present and the reset succeeded, the trace of `Run()`
starts with the trace of the reset. -/
theorem Run_trace_after_reset (env : Env) (s : Syncthing) (hbin : HasBinary env s = true)
    (hreset : (resetState env s).out = Outcome.ret none) :
    ∃ post, (Run env s).trace = (resetState env s).trace ++ post := by
  simp only [Run, hbin, hreset, Bool.not_true, Bool.false_eq_true, if_false]
  split
  · split
    · exact ⟨_, List.append_assoc _ _ _ |>.trans (List.append_assoc _ _ _)⟩
    · exact ⟨_, List.append_assoc _ _ _⟩
  · exact ⟨_, rfl⟩

theorem Run_state_of_missing_binary (env : Env) (s : Syncthing)
    (h : HasBinary env s = false) : (Run env s).state = s := by
  simp [Run, h]

theorem Run_trace_of_missing_binary (env : Env) (s : Syncthing)
    (h : HasBinary env s = false) : (Run env s).trace = [] := by
  simp [Run, h]

/-- When the reset reports an error, `Run()` stops there. -/
theorem Run_of_reset_error (env : Env) (s : Syncthing) (err : GoError)
    (hbin : HasBinary env s = true)
    (hreset : (resetState env s).out = Outcome.ret (some err)) :
    (Run env s).out = Outcome.ret (some err) ∧
    (Run env s).trace = (resetState env s).trace ∧
    (Run env s).relays = [] ∧
    (Run env s).state = s := by
  simp [Run, hbin, hreset, resetState_state]

/-- The reset does not read the receiver. -/
theorem resetState_receiver (env : Env) (s s2 : Syncthing) :
    (resetState env s).out = (resetState env s2).out ∧
    (resetState env s).trace = (resetState env s2).trace := by
  simp only [resetState]
  split <;> simp

theorem errHandler_state (env : Env) (s : Syncthing) (logger : String → LogRecord) :
    (errHandler env s logger).state = s := by
  simp only [errHandler]
  split
  · rfl
  · split <;> rfl

theorem lineHandler_state (env : Env) (s : Syncthing) (logger : String → LogRecord) :
    (lineHandler env s logger).state = s := by
  simp only [lineHandler]
  split
  · rfl
  · split <;> rfl

theorem initLogs_state (env : Env) (s : Syncthing) : (initLogs env s).state = s := by
  simp only [initLogs]
  split
  · simp only [lineHandler_state, errHandler_state]
  · exact errHandler_state env s _

/-- With a command recorded and both pipes available, `initLogs()` attaches
the stderr reader, then the stdout reader. -/
theorem initLogs_ok (env : Env) (s : Syncthing) (cmd : Cmd) (hcmd : s.cmd = some cmd)
    (herr : env.StderrPipe = none) (hout : env.StdoutPipe = none) :
    initLogs env s =
      ⟨s, [Event.pipe Stream.stderr, Event.go Stream.stderr,
          Event.pipe Stream.stdout, Event.go Stream.stdout],
        [⟨Stream.stderr, fun stderr =>
            errHandlerLoop (WithFields [("name", FieldValue.str "syncthing")]).Warn
              (NewScanner stderr)⟩,
          ⟨Stream.stdout, fun stdout =>
            lineHandlerLoop (WithFields [("name", FieldValue.str "syncthing")]).Debug
              (NewScanner stdout)⟩],
        Outcome.ret none⟩ := by
  simp [initLogs, errHandler, lineHandler, hcmd, herr, hout]

theorem cmdStart_state_of_failure (env : Env) (s : Syncthing)
    (h : (cmdStart env s).out ≠ Outcome.ret none) : (cmdStart env s).state = s := by
  simp only [cmdStart] at h ⊢
  cases hc : s.cmd with
  | none => simp
  | some cmd =>
    cases hs : env.Start cmd with
    | some err => simp [hs]
    | none => simp [hc, hs] at h

/-- `Run()` never reads the recorded command: outcome, effects and relays do
not depend on the receiver. -/
theorem Run_receiver (env : Env) (s s2 : Syncthing) :
    (Run env s).out = (Run env s2).out ∧
    (Run env s).trace = (Run env s2).trace ∧
    (Run env s).relays = (Run env s2).relays := by
  have hb : HasBinary env s = HasBinary env s2 := rfl
  obtain ⟨ho, ht⟩ := resetState_receiver env s s2
  cases hbin : HasBinary env s2 with
  | false => simp [Run, hb, hbin]
  | true =>
    cases hreset : (resetState env s2).out with
    | panic => exact absurd hreset (resetState_out_ne_panic env s2)
    | ret e =>
      cases e with
      | some err =>
        simp [Run, hb, hbin, ho, ht, hreset]
      | none =>
        simp [Run, hb, hbin, ho, ht, hreset, resetState_state]

/-- When `Run()` returns nil, the receiver records the new command with the
process that was started. -/
theorem Run_state_of_success (env : Env) (s : Syncthing)
    (h : (Run env s).out = Outcome.ret none) :
    (Run env s).state =
      { cmd := some { Command (runPath env) (runCmdArgs env) with
                      Process := some ⟨env.pid⟩ } } ∧
    Event.start (runPath env) (runPath env :: runCmdArgs env) ∈ (Run env s).trace := by
  cases hbin : HasBinary env s with
  | false => simp [Run, hbin] at h
  | true =>
    cases hreset : (resetState env s).out with
    | panic => exact absurd hreset (resetState_out_ne_panic env s)
    | ret e =>
      cases e with
      | some err => simp [Run, hbin, hreset] at h
      | none =>
        simp only [Run, hbin, hreset, resetState_state, Bool.not_true,
          Bool.false_eq_true, if_false] at h ⊢
        cases h2 : (initLogs env { cmd := some (Command (runPath env) (runCmdArgs env)) }).out with
        | panic => simp [h2] at h
        | ret e2 =>
          cases e2 with
          | some err => simp [h2] at h
          | none =>
            simp only [h2, initLogs_state] at h ⊢
            cases hs : env.Start (Command (runPath env) (runCmdArgs env)) with
            | some err => simp [cmdStart, hs] at h
            | none =>
              have h3 : cmdStart env { cmd := some (Command (runPath env) (runCmdArgs env)) } =
                  ⟨{ cmd := some { Command (runPath env) (runCmdArgs env) with
                                   Process := some ⟨env.pid⟩ } },
                    [Event.start (runPath env) (runPath env :: runCmdArgs env)], [],
                    Outcome.ret none⟩ := by
                simp only [cmdStart, hs]
                rfl
              simp [h3]

/-- A `Run()` that does not return nil leaves a supervisor without a process
handle without one. -/
theorem Run_failure_no_process (env : Env) (s : Syncthing)
    (hs : ∀ cmd, s.cmd = some cmd → cmd.Process = none)
    (hfail : (Run env s).out ≠ Outcome.ret none) :
    ∀ cmd, (Run env s).state.cmd = some cmd → cmd.Process = none := by
  cases hbin : HasBinary env s with
  | false =>
    rw [(Run_state_of_missing_binary env s hbin)]
    exact hs
  | true =>
    cases hreset : (resetState env s).out with
    | panic => exact absurd hreset (resetState_out_ne_panic env s)
    | ret e =>
      cases e with
      | some err =>
        rw [(Run_of_reset_error env s err hbin hreset).2.2.2]
        exact hs
      | none =>
        simp only [Run, hbin, hreset, resetState_state, Bool.not_true,
          Bool.false_eq_true, if_false] at hfail ⊢
        split at hfail
        · rename_i hlogs
          simp only [hlogs, initLogs_state] at hfail ⊢
          split at hfail
          · exact absurd rfl hfail
          · rename_i hne
            have hne2 : (cmdStart env
                { cmd := some (Command (runPath env) (runCmdArgs env)) }).out ≠
                  Outcome.ret none := fun h => hne h
            have hst := cmdStart_state_of_failure env _ hne2
            simp only [hst]
            intro cmd hcmd
            simp only [Option.some.injEq] at hcmd
            rw [← hcmd]
            rfl
        · simp only [initLogs_state]
          intro cmd hcmd
          simp only [Option.some.injEq] at hcmd
          rw [← hcmd]
          rfl

/-- The loop of `errHandler` calls the logger on each pending token, in order. -/
theorem errHandlerLoop_eq_map {α : Type} (logger : String → α) (scanner : Scanner) :
    errHandlerLoop logger scanner = scanner.rest.map logger := by
  obtain ⟨rest, err, text⟩ := scanner
  induction rest generalizing text with
  | nil =>
    rw [errHandlerLoop]
    simp [Scanner.Scan]
  | cons l ls ih =>
    rw [errHandlerLoop]
    simp [Scanner.Scan, Scanner.Text, ih]

/-- The loop of `lineHandler` calls the logger on each pending token, in order. -/
theorem lineHandlerLoop_eq_map {α : Type} (logger : String → α) (scanner : Scanner) :
    lineHandlerLoop logger scanner = scanner.rest.map logger := by
  obtain ⟨rest, err, text⟩ := scanner
  induction rest generalizing text with
  | nil =>
    rw [lineHandlerLoop]
    simp [Scanner.Scan]
  | cons l ls ih =>
    rw [lineHandlerLoop]
    simp [Scanner.Scan, Scanner.Text, ih]

theorem initLogs_trace_no_start (env : Env) (s : Syncthing) (path : String)
    (args : List String) : Event.start path args ∉ (initLogs env s).trace := by
  have h1 : ∀ logger, Event.start path args ∉ (errHandler env s logger).trace := by
    intro logger
    simp only [errHandler]
    split
    · simp
    · split <;> simp
  have h2 : ∀ logger, Event.start path args ∉ (lineHandler env s logger).trace := by
    intro logger
    simp only [lineHandler]
    split
    · simp
    · split <;> simp
  simp only [initLogs]
  split
  · simp only [errHandler_state, List.mem_append, not_or]
    exact ⟨h1 _, h2 _⟩
  · exact h1 _

theorem cmdStart_trace (env : Env) (cmd : Cmd) :
    (cmdStart env { cmd := some cmd }).trace = [Event.start cmd.Path cmd.Args] := by
  simp only [cmdStart]
  split <;> rfl

theorem cmdStart_cmd (env : Env) (cmd : Cmd) :
    ∃ process, (cmdStart env { cmd := some cmd }).state.cmd =
      some { Path := cmd.Path, Args := cmd.Args, Process := process } := by
  simp only [cmdStart]
  split
  · exact ⟨cmd.Process, rfl⟩
  · exact ⟨some ⟨env.pid⟩, rfl⟩

theorem startingRecord_no_start (s : Syncthing) (path : String) (args : List String) :
    Event.start path args ∉ startingRecord s := by
  simp only [startingRecord]
  split <;> simp

/-- Every process start in the trace of `Run()` is the start of the command
that `Run()` built. -/
theorem Run_start_event (env : Env) (s : Syncthing) (path : String) (args : List String)
    (hmem : Event.start path args ∈ (Run env s).trace) :
    path = runPath env ∧ args = runPath env :: runCmdArgs env := by
  have hstart : ∀ t : List Event,
      Event.start path args ∈
        (resetState env s).trace ++
          (initLogs env { cmd := some (Command (runPath env) (runCmdArgs env)) }).trace ++
          (cmdStart env { cmd := some (Command (runPath env) (runCmdArgs env)) }).trace ++ t →
      Event.start path args ∉ t →
      path = runPath env ∧ args = runPath env :: runCmdArgs env := by
    intro t h ht
    simp only [List.mem_append] at h
    rcases h with ((h | h) | h) | h
    · exact absurd h (resetState_trace_no_start env s path args)
    · exact absurd h (initLogs_trace_no_start env _ path args)
    · rw [cmdStart_trace] at h
      simp only [List.mem_singleton, Event.start.injEq] at h
      exact ⟨h.1, h.2⟩
    · exact absurd h ht
  cases hbin : HasBinary env s with
  | false =>
    rw [Run_trace_of_missing_binary env s hbin] at hmem
    simp at hmem
  | true =>
    cases hreset : (resetState env s).out with
    | panic => exact absurd hreset (resetState_out_ne_panic env s)
    | ret e =>
      cases e with
      | some err =>
        rw [(Run_of_reset_error env s err hbin hreset).2.1] at hmem
        exact absurd hmem (resetState_trace_no_start env s path args)
      | none =>
        simp only [Run, hbin, hreset, resetState_state, Bool.not_true,
          Bool.false_eq_true, if_false] at hmem
        split at hmem
        · simp only [initLogs_state] at hmem
          split at hmem
          · exact hstart _ hmem (startingRecord_no_start _ path args)
          · exact hstart [] (by simpa using hmem) (by simp)
        · simp only [List.mem_append] at hmem
          rcases hmem with h | h
          · exact absurd h (resetState_trace_no_start env s path args)
          · exact absurd h (initLogs_trace_no_start env _ path args)

/-- Once the binary is present and the reset succeeded, the receiver records
the command that `Run()` built, whatever happens afterwards. -/
theorem Run_cmd_after_reset (env : Env) (s : Syncthing) (hbin : HasBinary env s = true)
    (hreset : (resetState env s).out = Outcome.ret none) :
    ∃ process, (Run env s).state.cmd =
      some { Path := runPath env, Args := runPath env :: runCmdArgs env,
             Process := process } := by
  simp only [Run, hbin, hreset, resetState_state, Bool.not_true,
    Bool.false_eq_true, if_false]
  split
  · simp only [initLogs_state]
    split
    · exact cmdStart_cmd env (Command (runPath env) (runCmdArgs env))
    · exact cmdStart_cmd env (Command (runPath env) (runCmdArgs env))
  · simp only [initLogs_state]
    exact ⟨none, rfl⟩

/-- Under a successful reset the trace is the removal followed by the
regeneration of `config.xml`. -/
theorem resetState_trace_of_success (env : Env) (s : Syncthing)
    (hok : (resetState env s).out = Outcome.ret none) :
    (resetState env s).trace =
      [Event.removeAll (env.Join [env.ConfigPath, "syncthing"]),
        Event.resetConfig
          (env.Join [env.Join [env.ConfigPath, "syncthing"], "config.xml"])] := by
  simp only [resetState] at hok ⊢
  split
  · rename_i err hra
    simp [hra] at hok
  · rfl

/-- Removing a directory and then writing a file below it leaves that file
and what lay outside the directory. -/
theorem resetConfigFS_removeAllFS (config dir path : String) (fs : FS)
    (hin : isWithin dir path = true) :
    resetConfigFS config path (removeAllFS dir fs) = (path, config) :: removeAllFS dir fs := by
  simp only [resetConfigFS, removeAllFS, List.filter_filter]
  congr 1
  apply List.filter_congr
  intro file _
  by_cases h : file.1 = path
  · simp [h, hin]
  · simp [h]

theorem removeAllFS_idem (dir : String) (fs : FS) :
    removeAllFS dir (removeAllFS dir fs) = removeAllFS dir fs := by
  simp [removeAllFS, List.filter_filter]

theorem dirContents_removeAllFS (dir : String) (fs : FS) :
    dirContents dir (removeAllFS dir fs) = [] := by
  simp [dirContents, removeAllFS, List.filter_filter]

/-- A process start in the trace of `Run()` comes after the check of the
binary and after both steps of a successful reset. -/
theorem Run_reset_events_of_start (env : Env) (s : Syncthing) (path : String)
    (args : List String) (hmem : Event.start path args ∈ (Run env s).trace) :
    HasBinary env s = true ∧
    (resetState env s).out = Outcome.ret none ∧
    Event.removeAll (env.Join [env.ConfigPath, "syncthing"]) ∈ (Run env s).trace ∧
    Event.resetConfig
      (env.Join [env.Join [env.ConfigPath, "syncthing"], "config.xml"]) ∈
        (Run env s).trace := by
  cases hbin : HasBinary env s with
  | false =>
    rw [Run_trace_of_missing_binary env s hbin] at hmem
    simp at hmem
  | true =>
    cases hreset : (resetState env s).out with
    | panic => exact absurd hreset (resetState_out_ne_panic env s)
    | ret e =>
      cases e with
      | some err =>
        rw [(Run_of_reset_error env s err hbin hreset).2.1] at hmem
        exact absurd hmem (resetState_trace_no_start env s path args)
      | none =>
        obtain ⟨post, hpost⟩ := Run_trace_after_reset env s hbin hreset
        rw [hpost, resetState_trace_of_success env s hreset]
        simp

/-! ## Claims -/

/-- Claim C1: when `HasBinary()` is false, `Run()` returns the prerequisite
error and does nothing else: its trace of effects is empty (no state reset,
no pipe, no goroutine, no process start), no relay is attached and the
receiver is unchanged. -/
theorem Run_missing_binary (env : Env) (s : Syncthing) (h : HasBinary env s = false) :
    (Run env s).out = Outcome.ret (some ⟨"missing pre-requisites, run init to fix"⟩) ∧
    (Run env s).trace = [] ∧
    (Run env s).relays = [] ∧
    (Run env s).state = s := by
  simp [Run, h]

theorem Run_missing_binary_witness :
    HasBinary noBinaryEnv NewSyncthing = false ∧
    (Run noBinaryEnv NewSyncthing).out =
      Outcome.ret (some ⟨"missing pre-requisites, run init to fix"⟩) ∧
    (Run noBinaryEnv NewSyncthing).trace = [] ∧
    (Run noBinaryEnv NewSyncthing).relays = [] ∧
    (Run noBinaryEnv NewSyncthing).state = NewSyncthing :=
  ⟨by decide, Run_missing_binary noBinaryEnv NewSyncthing (by decide)⟩

/-- Claim C2: with the binary present, when `resetState()` fails (removing the
directory fails, or the removal succeeds and regenerating `config.xml` fails),
`Run()` returns that same error, performs nothing beyond the reset itself and
never starts the process; and whenever the trace of `Run()` contains a process
start, both reset steps returned nil and both stand in the trace before it. -/
theorem Run_resetState_gate (env : Env) (s : Syncthing) :
    (HasBinary env s = true →
      ∀ err : GoError,
        (env.RemoveAll (env.Join [env.ConfigPath, "syncthing"]) = some err ∨
          (env.RemoveAll (env.Join [env.ConfigPath, "syncthing"]) = none ∧
            env.ResetConfig
              (env.Join [env.Join [env.ConfigPath, "syncthing"], "config.xml"]) = some err)) →
        (resetState env s).out = Outcome.ret (some err) ∧
        (Run env s).out = Outcome.ret (some err) ∧
        (∀ path args, Event.start path args ∉ (Run env s).trace) ∧
        (Run env s).trace = (resetState env s).trace ∧
        (Run env s).relays = [] ∧
        (Run env s).state = s) ∧
    (∀ path args, Event.start path args ∈ (Run env s).trace →
        env.RemoveAll (env.Join [env.ConfigPath, "syncthing"]) = none ∧
        env.ResetConfig
          (env.Join [env.Join [env.ConfigPath, "syncthing"], "config.xml"]) = none ∧
        (resetState env s).out = Outcome.ret none ∧
        ∃ post, (Run env s).trace =
            [Event.removeAll (env.Join [env.ConfigPath, "syncthing"]),
              Event.resetConfig
                (env.Join [env.Join [env.ConfigPath, "syncthing"], "config.xml"])] ++ post ∧
          Event.start path args ∈ post) := by
  constructor
  · intro hbin err h
    have hreset : (resetState env s).out = Outcome.ret (some err) := by
      rcases h with h | ⟨h1, h2⟩
      · simp [resetState, h]
      · simp [resetState, h1, h2]
    obtain ⟨hout, htrace, hrelays, hstate⟩ := Run_of_reset_error env s err hbin hreset
    refine ⟨hreset, hout, ?_, htrace, hrelays, hstate⟩
    intro path args
    rw [htrace]
    exact resetState_trace_no_start env s path args
  · intro path args hmem
    cases hbin : HasBinary env s with
    | false =>
      rw [Run_trace_of_missing_binary env s hbin] at hmem
      simp at hmem
    | true =>
      cases hra : env.RemoveAll (env.Join [env.ConfigPath, "syncthing"]) with
      | some err =>
        have hreset : (resetState env s).out = Outcome.ret (some err) := by
          simp [resetState, hra]
        rw [(Run_of_reset_error env s err hbin hreset).2.1] at hmem
        exact absurd hmem (resetState_trace_no_start env s path args)
      | none =>
        cases hrc : env.ResetConfig
            (env.Join [env.Join [env.ConfigPath, "syncthing"], "config.xml"]) with
        | some err =>
          have hreset : (resetState env s).out = Outcome.ret (some err) := by
            simp [resetState, hra, hrc]
          rw [(Run_of_reset_error env s err hbin hreset).2.1] at hmem
          exact absurd hmem (resetState_trace_no_start env s path args)
        | none =>
          have hreset : (resetState env s).out = Outcome.ret none := by
            simp [resetState, hra, hrc]
          have htr : (resetState env s).trace =
              [Event.removeAll (env.Join [env.ConfigPath, "syncthing"]),
                Event.resetConfig
                  (env.Join [env.Join [env.ConfigPath, "syncthing"], "config.xml"])] := by
            simp [resetState, hra]
          obtain ⟨post, hpost⟩ := Run_trace_after_reset env s hbin hreset
          refine ⟨rfl, rfl, hreset, post, ?_, ?_⟩
          · rw [hpost, htr]
          · rw [hpost, htr] at hmem
            simpa using hmem

theorem Run_resetState_gate_witness :
    ((Run removeFailsEnv NewSyncthing).out =
        Outcome.ret (some ⟨"unlinkat: permission denied"⟩) ∧
      ∀ path args, Event.start path args ∉ (Run removeFailsEnv NewSyncthing).trace) ∧
    ((Run resetConfigFailsEnv NewSyncthing).out =
        Outcome.ret (some ⟨"open config.xml: permission denied"⟩) ∧
      ∀ path args, Event.start path args ∉ (Run resetConfigFailsEnv NewSyncthing).trace) ∧
    (sampleEnv.RemoveAll "/home/dev/.ksync/syncthing" = none ∧
      sampleEnv.ResetConfig "/home/dev/.ksync/syncthing/config.xml" = none) :=
  have h1 := (Run_resetState_gate removeFailsEnv NewSyncthing).1 (by decide)
    ⟨"unlinkat: permission denied"⟩ (Or.inl (by decide))
  have h2 := (Run_resetState_gate resetConfigFailsEnv NewSyncthing).1 (by decide)
    ⟨"open config.xml: permission denied"⟩ (Or.inr ⟨by decide, by decide⟩)
  have h3 := (Run_resetState_gate sampleEnv NewSyncthing).2
    "/home/dev/.ksync/bin/syncthing"
    ["/home/dev/.ksync/bin/syncthing", "-gui-address", "localhost:8384", "-gui-apikey",
      "ksync", "-home", "/home/dev/.ksync/syncthing", "-no-browser"] (by decide)
  ⟨⟨h1.2.1, h1.2.2.1⟩, ⟨h2.2.1, h2.2.2.1⟩, ⟨h3.1, h3.2.1⟩⟩

/-- Claim C3: on a running supervisor (a command with a started process),
`Stop()` sends the kill, then performs the wait whatever the kill reported,
and returns exactly what the kill reported: the outcome of the wait never
changes the result. -/
theorem Stop_running (env : Env) (s : Syncthing) (cmd : Cmd) (process : Process)
    (hcmd : s.cmd = some cmd) (hproc : cmd.Process = some process) :
    (Stop env s).trace = [Event.kill process.Pid, Event.wait process.Pid] ∧
    (Stop env s).out = Outcome.ret (env.Kill process.Pid) ∧
    (∀ wait : Nat → Option GoError,
      (Stop { env with Wait := wait } s).out = Outcome.ret (env.Kill process.Pid)) ∧
    (Stop env s).state = s := by
  simp [Stop, hcmd, hproc]

theorem Stop_running_witness :
    (Stop killFailsEnv runningSyncthing).trace = [Event.kill 4242, Event.wait 4242] ∧
    (Stop killFailsEnv runningSyncthing).out =
      Outcome.ret (some ⟨"os: process already finished"⟩) ∧
    (∀ wait : Nat → Option GoError,
      (Stop { killFailsEnv with Wait := wait } runningSyncthing).out =
        Outcome.ret (some ⟨"os: process already finished"⟩)) ∧
    (Stop killFailsEnv runningSyncthing).state = runningSyncthing :=
  Stop_running killFailsEnv runningSyncthing
    { Path := "/home/dev/.ksync/bin/syncthing",
      Args := ["/home/dev/.ksync/bin/syncthing", "-no-browser"],
      Process := some ⟨4242⟩ } ⟨4242⟩ rfl rfl

/-- Counterexample to claim C4 as stated: the start fails, yet both readers
were attached before it and the receiver no longer is the fresh supervisor:
it records the command that failed to start. -/
theorem Run_failed_start_counterexample :
    startFailsEnv.Start (Command (runPath startFailsEnv) (runCmdArgs startFailsEnv)) =
      some ⟨"fork/exec: exec format error"⟩ ∧
    (Run startFailsEnv NewSyncthing).out =
      Outcome.ret (some ⟨"fork/exec: exec format error"⟩) ∧
    (Run startFailsEnv NewSyncthing).relays.map Relay.stream =
      [Stream.stderr, Stream.stdout] ∧
    (Run startFailsEnv NewSyncthing).relays.length ≠ 0 ∧
    (Run startFailsEnv NewSyncthing).state ≠ NewSyncthing ∧
    (Run startFailsEnv NewSyncthing).state.cmd =
      some { Path := "/home/dev/.ksync/bin/syncthing",
             Args := ["/home/dev/.ksync/bin/syncthing", "-gui-address", "localhost:8384",
               "-gui-apikey", "ksync", "-home", "/home/dev/.ksync/syncthing", "-no-browser"],
             Process := none } := by
  decide

/-- Claim C4, amended: when `Run()` fails because starting the process fails
(binary present, reset and both pipes fine), it returns the error of the
start; both readers have already been attached, stderr then stdout, since
`initLogs()` runs before the start; the receiver records the command that
failed to start, without a process; and `Run()` can be retried, because a
later `Run()` behaves from that state exactly as from the state before. -/
theorem Run_start_fails (env : Env) (s : Syncthing) (err : GoError)
    (hbin : HasBinary env s = true)
    (hreset : (resetState env s).out = Outcome.ret none)
    (herr : env.StderrPipe = none) (hout : env.StdoutPipe = none)
    (hstart : env.Start (Command (runPath env) (runCmdArgs env)) = some err) :
    (Run env s).out = Outcome.ret (some err) ∧
    (Run env s).relays.map Relay.stream = [Stream.stderr, Stream.stdout] ∧
    (Run env s).trace = (resetState env s).trace ++
      [Event.pipe Stream.stderr, Event.go Stream.stderr,
        Event.pipe Stream.stdout, Event.go Stream.stdout,
        Event.start (runPath env) (runPath env :: runCmdArgs env)] ∧
    (Run env s).state =
      { cmd := some { Path := runPath env, Args := runPath env :: runCmdArgs env,
                      Process := none } } ∧
    (∀ env2 : Env,
      (Run env2 (Run env s).state).out = (Run env2 s).out ∧
      (Run env2 (Run env s).state).trace = (Run env2 s).trace ∧
      (Run env2 (Run env s).state).relays = (Run env2 s).relays) := by
  have hlogs := initLogs_ok env { cmd := some (Command (runPath env) (runCmdArgs env)) }
    (Command (runPath env) (runCmdArgs env)) rfl herr hout
  have h3 : cmdStart env { cmd := some (Command (runPath env) (runCmdArgs env)) } =
      ⟨{ cmd := some (Command (runPath env) (runCmdArgs env)) },
        [Event.start (runPath env) (runPath env :: runCmdArgs env)], [],
        Outcome.ret (some err)⟩ := by
    simp only [cmdStart, hstart]
    rfl
  refine ⟨?_, ?_, ?_, ?_, fun env2 => Run_receiver env2 _ s⟩
  · simp [Run, hbin, hreset, resetState_state, hlogs, h3]
  · simp [Run, hbin, hreset, resetState_state, hlogs, h3]
  · simp [Run, hbin, hreset, resetState_state, hlogs, h3]
  · have hst : (Run env s).state =
        { cmd := some (Command (runPath env) (runCmdArgs env)) } := by
      simp [Run, hbin, hreset, resetState_state, hlogs, h3]
    rw [hst]
    rfl

theorem Run_start_fails_witness :
    (Run startFailsEnv NewSyncthing).out =
      Outcome.ret (some ⟨"fork/exec: exec format error"⟩) ∧
    (Run startFailsEnv NewSyncthing).relays.map Relay.stream =
      [Stream.stderr, Stream.stdout] ∧
    (Run startFailsEnv NewSyncthing).state =
      { cmd := some { Path := runPath startFailsEnv,
                      Args := runPath startFailsEnv :: runCmdArgs startFailsEnv,
                      Process := none } } ∧
    (Run sampleEnv (Run startFailsEnv NewSyncthing).state).out =
      (Run sampleEnv NewSyncthing).out :=
  have h := Run_start_fails startFailsEnv NewSyncthing ⟨"fork/exec: exec format error"⟩
    (by decide) (by decide) (by decide) (by decide) (by decide)
  ⟨h.1, h.2.1, h.2.2.2.1, (h.2.2.2.2 sampleEnv).1⟩

/-- Counterexample to claim C5 as stated: on a fresh supervisor, on one whose
`Run()` failed for a missing binary and on one whose `Run()` failed at the
start, `Stop()` does not return an error value: it panics. -/
theorem Stop_not_running_counterexample :
    (Stop sampleEnv NewSyncthing).out = Outcome.panic ∧
    (∀ err, (Stop sampleEnv NewSyncthing).out ≠ Outcome.ret err) ∧
    (Run noBinaryEnv NewSyncthing).out ≠ Outcome.ret none ∧
    (Stop sampleEnv (Run noBinaryEnv NewSyncthing).state).out = Outcome.panic ∧
    (Run startFailsEnv NewSyncthing).out ≠ Outcome.ret none ∧
    (Stop sampleEnv (Run startFailsEnv NewSyncthing).state).out = Outcome.panic := by
  refine ⟨by decide, ?_, by decide, by decide, by decide, by decide⟩
  intro err h
  have hp : (Stop sampleEnv NewSyncthing).out = Outcome.panic := by decide
  rw [hp] at h
  exact Outcome.noConfusion h

/-- Claim C5, amended: `Stop()` on a supervisor that records no process (no
command, or a command that never started) returns no error value: it panics
on the nil dereference, sends no kill, performs no wait and leaves the
receiver unchanged.  A fresh `NewSyncthing()` is such a supervisor, and so
is such a supervisor after a `Run()` that failed. -/
theorem Stop_without_process (env : Env) (s : Syncthing)
    (h : ∀ cmd, s.cmd = some cmd → cmd.Process = none) :
    (Stop env s).out = Outcome.panic ∧
    (Stop env s).trace = [] ∧
    (Stop env s).state = s ∧
    (Stop env NewSyncthing).out = Outcome.panic ∧
    (∀ env2 : Env, (Run env2 s).out ≠ Outcome.ret none →
      (Stop env (Run env2 s).state).out = Outcome.panic ∧
      (Stop env (Run env2 s).state).trace = []) := by
  have key : ∀ t : Syncthing, (∀ cmd, t.cmd = some cmd → cmd.Process = none) →
      (Stop env t).out = Outcome.panic ∧ (Stop env t).trace = [] ∧ (Stop env t).state = t := by
    intro t ht
    simp only [Stop]
    cases hc : t.cmd with
    | none => simp
    | some cmd => simp [ht cmd hc]
  obtain ⟨h1, h2, h3⟩ := key s h
  refine ⟨h1, h2, h3, rfl, ?_⟩
  intro env2 hfail
  obtain ⟨k1, k2, _⟩ := key (Run env2 s).state (Run_failure_no_process env2 s h hfail)
  exact ⟨k1, k2⟩

theorem Stop_without_process_witness :
    (Stop sampleEnv NewSyncthing).out = Outcome.panic ∧
    (Stop sampleEnv NewSyncthing).trace = [] ∧
    (Stop sampleEnv NewSyncthing).state = NewSyncthing ∧
    (Stop sampleEnv (Run startFailsEnv NewSyncthing).state).out = Outcome.panic :=
  have h := Stop_without_process sampleEnv NewSyncthing (by decide)
  ⟨h.1, h.2.1, h.2.2.1, (h.2.2.2.2 startFailsEnv (by decide)).1⟩

/-- Counterexample to claim C6 as stated: a second `Run()` on a supervisor
whose first `Run()` succeeded and which was not stopped is not rejected: it
returns nil, starts a second process and replaces the recorded handle. -/
theorem Run_twice_counterexample :
    (Run sampleEnv NewSyncthing).out = Outcome.ret none ∧
    (Run sampleEnv NewSyncthing).state.cmd.bind Cmd.Process = some ⟨4242⟩ ∧
    (Run laterEnv (Run sampleEnv NewSyncthing).state).out = Outcome.ret none ∧
    Event.start "/home/dev/.ksync/bin/syncthing"
        ["/home/dev/.ksync/bin/syncthing", "-gui-address", "localhost:8384", "-gui-apikey",
          "ksync", "-home", "/home/dev/.ksync/syncthing", "-no-browser"] ∈
      (Run laterEnv (Run sampleEnv NewSyncthing).state).trace ∧
    (Run laterEnv (Run sampleEnv NewSyncthing).state).state.cmd.bind Cmd.Process =
      some ⟨4343⟩ ∧
    (Run laterEnv (Run sampleEnv NewSyncthing).state).state ≠
      (Run sampleEnv NewSyncthing).state := by
  decide

/-- Claim C6, amended: the supervisor has a single `cmd` field, so it records
at most one process handle at a time, but `Run()` never reads it: outcome,
effects and relays of `Run()` are the same on a running supervisor as on any
other, and when `Run()` returns nil it has started a process and the recorded
handle is the new one, whatever was recorded before. -/
theorem Run_ignores_recorded_handle (env : Env) (s s2 : Syncthing) :
    (Run env s).out = (Run env s2).out ∧
    (Run env s).trace = (Run env s2).trace ∧
    (Run env s).relays = (Run env s2).relays ∧
    ((Run env s).out = Outcome.ret none →
      (Run env s).state =
        { cmd := some { Path := runPath env, Args := runPath env :: runCmdArgs env,
                        Process := some ⟨env.pid⟩ } } ∧
      Event.start (runPath env) (runPath env :: runCmdArgs env) ∈ (Run env s).trace) := by
  obtain ⟨h1, h2, h3⟩ := Run_receiver env s s2
  exact ⟨h1, h2, h3, fun h => Run_state_of_success env s h⟩

theorem Run_ignores_recorded_handle_witness :
    (Run laterEnv runningSyncthing).out = (Run laterEnv NewSyncthing).out ∧
    (Run laterEnv runningSyncthing).trace = (Run laterEnv NewSyncthing).trace ∧
    (Run laterEnv runningSyncthing).state =
      { cmd := some { Path := runPath laterEnv,
                      Args := runPath laterEnv :: runCmdArgs laterEnv,
                      Process := some ⟨4343⟩ } } :=
  have h := Run_ignores_recorded_handle laterEnv runningSyncthing NewSyncthing
  ⟨h.1, h.2.1, (h.2.2.2 (by decide)).1⟩

/-- Claim C8: for every finite sequence of lines on a stream, whatever error
(or none) ends the scan, the loop of `errHandler` and the loop of
`lineHandler` call the sink once per line, with the text of the line, in
stream order, and then stop; nothing but the sink calls comes out of the
loop.  The same holds of the reader each handler attaches.  Lines a, b, c
give the calls a, b, c. -/
theorem relay_preserves_line_order {α : Type} (logger : String → α) (lines : List String)
    (err : Option GoError) (env : Env) (s : Syncthing) (sink : String → LogRecord) :
    errHandlerLoop logger (NewScanner ⟨lines, err⟩) = lines.map logger ∧
    lineHandlerLoop logger (NewScanner ⟨lines, err⟩) = lines.map logger ∧
    (errHandler env s sink).relays.map (fun r => r.run ⟨lines, err⟩) =
      (errHandler env s sink).relays.map (fun _ => lines.map sink) ∧
    (lineHandler env s sink).relays.map (fun r => r.run ⟨lines, err⟩) =
      (lineHandler env s sink).relays.map (fun _ => lines.map sink) ∧
    errHandlerLoop (fun line => line) (NewScanner ⟨["a", "b", "c"], err⟩) = ["a", "b", "c"] ∧
    lineHandlerLoop (fun line => line) (NewScanner ⟨["a", "b", "c"], err⟩) = ["a", "b", "c"] := by
  refine ⟨?_, ?_, ?_, ?_, ?_, ?_⟩
  · simp [errHandlerLoop_eq_map, NewScanner]
  · simp [lineHandlerLoop_eq_map, NewScanner]
  · simp only [errHandler]
    split
    · rfl
    · split
      · rfl
      · simp [errHandlerLoop_eq_map, NewScanner]
  · simp only [lineHandler]
    split
    · rfl
    · split
      · rfl
      · simp [lineHandlerLoop_eq_map, NewScanner]
  · simp [errHandlerLoop_eq_map, NewScanner]
  · simp [lineHandlerLoop_eq_map, NewScanner]

theorem relay_preserves_line_order_witness :
    errHandlerLoop (WithFields [("name", FieldValue.str "syncthing")]).Warn
        (NewScanner ⟨["a", "b", "c"], none⟩) =
      [⟨[("name", FieldValue.str "syncthing")], Level.warn, "a"⟩,
        ⟨[("name", FieldValue.str "syncthing")], Level.warn, "b"⟩,
        ⟨[("name", FieldValue.str "syncthing")], Level.warn, "c"⟩] ∧
    lineHandlerLoop (fun line => line)
        (NewScanner ⟨["a", "b", "c"], some ⟨"read |0: file already closed"⟩⟩) =
      ["a", "b", "c"] :=
  ⟨(relay_preserves_line_order (WithFields [("name", FieldValue.str "syncthing")]).Warn
      ["a", "b", "c"] none sampleEnv NewSyncthing
      (WithFields [("name", FieldValue.str "syncthing")]).Warn).1,
    (relay_preserves_line_order (fun line => line) ["a", "b", "c"]
      (some ⟨"read |0: file already closed"⟩) sampleEnv NewSyncthing
      (WithFields [("name", FieldValue.str "syncthing")]).Warn).2.1⟩

/-- Claim C9: with a command recorded and both pipes available, `initLogs()`
attaches exactly two readers: the first drains stderr and hands every line to
the warning method of the logger with the field name = syncthing, the second
drains stdout and hands every line to the debug method of that same logger.
So every record made from stderr is a warning, every record made from stdout
is a debug record, and all carry name = syncthing. -/
theorem initLogs_wiring (env : Env) (s : Syncthing) (cmd : Cmd) (hcmd : s.cmd = some cmd)
    (herr : env.StderrPipe = none) (hout : env.StdoutPipe = none) :
    ∃ errRelay outRelay : Relay,
      (initLogs env s).relays = [errRelay, outRelay] ∧
      (initLogs env s).out = Outcome.ret none ∧
      errRelay.stream = Stream.stderr ∧
      outRelay.stream = Stream.stdout ∧
      (∀ stderr : Reader,
        errRelay.run stderr = stderr.lines.map
          (fun line => ⟨[("name", FieldValue.str "syncthing")], Level.warn, line⟩)) ∧
      (∀ stdout : Reader,
        outRelay.run stdout = stdout.lines.map
          (fun line => ⟨[("name", FieldValue.str "syncthing")], Level.debug, line⟩)) ∧
      (∀ (stderr : Reader) (r : LogRecord), r ∈ errRelay.run stderr →
        r.level = Level.warn ∧ r.level ≠ Level.debug ∧
        r.fields = [("name", FieldValue.str "syncthing")] ∧ r.msg ∈ stderr.lines) ∧
      (∀ (stdout : Reader) (r : LogRecord), r ∈ outRelay.run stdout →
        r.level = Level.debug ∧ r.level ≠ Level.warn ∧
        r.fields = [("name", FieldValue.str "syncthing")] ∧ r.msg ∈ stdout.lines) := by
  have hE : ∀ stderr : Reader,
      errHandlerLoop (WithFields [("name", FieldValue.str "syncthing")]).Warn
          (NewScanner stderr) =
        stderr.lines.map
          (fun line => ⟨[("name", FieldValue.str "syncthing")], Level.warn, line⟩) := by
    intro stderr
    rw [errHandlerLoop_eq_map]
    rfl
  have hO : ∀ stdout : Reader,
      lineHandlerLoop (WithFields [("name", FieldValue.str "syncthing")]).Debug
          (NewScanner stdout) =
        stdout.lines.map
          (fun line => ⟨[("name", FieldValue.str "syncthing")], Level.debug, line⟩) := by
    intro stdout
    rw [lineHandlerLoop_eq_map]
    rfl
  rw [initLogs_ok env s cmd hcmd herr hout]
  refine ⟨_, _, rfl, rfl, rfl, rfl, hE, hO, ?_, ?_⟩
  · intro stderr r hr
    simp only [hE, List.mem_map] at hr
    obtain ⟨line, hline, rfl⟩ := hr
    exact ⟨rfl, by simp, rfl, hline⟩
  · intro stdout r hr
    simp only [hO, List.mem_map] at hr
    obtain ⟨line, hline, rfl⟩ := hr
    exact ⟨rfl, by simp, rfl, hline⟩

theorem initLogs_wiring_witness :
    ∃ errRelay outRelay : Relay,
      (initLogs sampleEnv runningSyncthing).relays = [errRelay, outRelay] ∧
      errRelay.stream = Stream.stderr ∧
      outRelay.stream = Stream.stdout ∧
      errRelay.run ⟨["a", "b"], none⟩ =
        [⟨[("name", FieldValue.str "syncthing")], Level.warn, "a"⟩,
          ⟨[("name", FieldValue.str "syncthing")], Level.warn, "b"⟩] ∧
      outRelay.run ⟨["c"], none⟩ =
        [⟨[("name", FieldValue.str "syncthing")], Level.debug, "c"⟩] :=
  match initLogs_wiring sampleEnv runningSyncthing
    { Path := "/home/dev/.ksync/bin/syncthing",
      Args := ["/home/dev/.ksync/bin/syncthing", "-no-browser"],
      Process := some ⟨4242⟩ } rfl rfl rfl with
  | ⟨errRelay, outRelay, h1, _, h3, h4, h5, h6, _, _⟩ =>
    ⟨errRelay, outRelay, h1, h3, h4, h5 ⟨["a", "b"], none⟩, h6 ⟨["c"], none⟩⟩

/-- Claim C10: for every port p, API key k and directory d of the
configuration file in use, the argument list `Run()` builds is -gui-address,
localhost:p in decimal, -gui-apikey, k, -home, the join of d and syncthing,
-no-browser, in that order; once the binary is present and the reset
succeeded the recorded command holds the executable path followed by exactly
these arguments, and every process start in the trace of `Run()` carries
them. -/
theorem Run_argument_list (env : Env) (p : Int) (k d : String)
    (hp : env.GetInt "syncthing-port" = p) (hk : env.GetString "apikey" = k)
    (hd : env.Dir env.ConfigFileUsed = d) :
    runCmdArgs env =
      ["-gui-address", "localhost:" ++ fmtD p, "-gui-apikey", k,
        "-home", env.Join [d, "syncthing"], "-no-browser"] ∧
    (∀ s : Syncthing, HasBinary env s = true →
      (resetState env s).out = Outcome.ret none →
      (Run env s).state.cmd.map Cmd.Args =
        some (env.Join [d, "bin", "syncthing"] ::
          ["-gui-address", "localhost:" ++ fmtD p, "-gui-apikey", k,
            "-home", env.Join [d, "syncthing"], "-no-browser"])) ∧
    (∀ (s : Syncthing) (path : String) (args : List String),
      Event.start path args ∈ (Run env s).trace →
      args = path ::
        ["-gui-address", "localhost:" ++ fmtD p, "-gui-apikey", k,
          "-home", env.Join [d, "syncthing"], "-no-browser"]) := by
  have hargs : runCmdArgs env =
      ["-gui-address", "localhost:" ++ fmtD p, "-gui-apikey", k,
        "-home", env.Join [d, "syncthing"], "-no-browser"] := by
    simp only [runCmdArgs, hp, hk, hd]
  have hpath : runPath env = env.Join [d, "bin", "syncthing"] := by
    simp only [runPath, hd]
  refine ⟨hargs, ?_, ?_⟩
  · intro s hbin hreset
    obtain ⟨process, hcmd⟩ := Run_cmd_after_reset env s hbin hreset
    rw [hcmd, ← hargs, ← hpath]
    rfl
  · intro s path args hmem
    obtain ⟨h1, h2⟩ := Run_start_event env s path args hmem
    rw [h2, h1, hargs]

theorem Run_argument_list_witness :
    runCmdArgs sampleEnv =
      ["-gui-address", "localhost:8384", "-gui-apikey", "ksync",
        "-home", "/home/dev/.ksync/syncthing", "-no-browser"] ∧
    (Run sampleEnv NewSyncthing).state.cmd.map Cmd.Args =
      some ["/home/dev/.ksync/bin/syncthing", "-gui-address", "localhost:8384",
        "-gui-apikey", "ksync", "-home", "/home/dev/.ksync/syncthing", "-no-browser"] :=
  have h := Run_argument_list sampleEnv 8384 "ksync" "/home/dev/.ksync"
    (by decide) (by decide) (by decide)
  ⟨h.1, h.2.1 NewSyncthing (by decide) (by decide)⟩

/-- Claim C11: when the removal and the regeneration of `config.xml` both
succeed (and `config.xml` lies below the daemon directory), then whatever the
filesystem held before, after `resetState()` the daemon directory holds
exactly the freshly generated `config.xml`, everything outside the directory
is as before, and running `resetState()` a second time leaves the filesystem
exactly as the first run left it. -/
theorem resetState_idempotent (env : Env) (s : Syncthing) (config : String) (fs : FS)
    (hok : (resetState env s).out = Outcome.ret none)
    (hbelow : isWithin (env.Join [env.ConfigPath, "syncthing"])
      (env.Join [env.Join [env.ConfigPath, "syncthing"], "config.xml"]) = true) :
    dirContents (env.Join [env.ConfigPath, "syncthing"])
        (fsAfter config fs (resetState env s).trace) =
      [(env.Join [env.Join [env.ConfigPath, "syncthing"], "config.xml"], config)] ∧
    removeAllFS (env.Join [env.ConfigPath, "syncthing"])
        (fsAfter config fs (resetState env s).trace) =
      removeAllFS (env.Join [env.ConfigPath, "syncthing"]) fs ∧
    fsAfter config (fsAfter config fs (resetState env s).trace) (resetState env s).trace =
      fsAfter config fs (resetState env s).trace := by
  have honce : fsAfter config fs (resetState env s).trace =
      (env.Join [env.Join [env.ConfigPath, "syncthing"], "config.xml"], config) ::
        removeAllFS (env.Join [env.ConfigPath, "syncthing"]) fs := by
    rw [resetState_trace_of_success env s hok]
    simp only [fsAfter, List.foldl, applyEvent]
    exact resetConfigFS_removeAllFS config _ _ fs hbelow
  have hrm : removeAllFS (env.Join [env.ConfigPath, "syncthing"])
      ((env.Join [env.Join [env.ConfigPath, "syncthing"], "config.xml"], config) ::
        removeAllFS (env.Join [env.ConfigPath, "syncthing"]) fs) =
      removeAllFS (env.Join [env.ConfigPath, "syncthing"]) fs := by
    conv_lhs => rw [removeAllFS, List.filter_cons]
    simp only [hbelow, Bool.not_true, Bool.false_eq_true, if_false]
    exact removeAllFS_idem _ fs
  refine ⟨?_, ?_, ?_⟩
  · rw [honce, dirContents, List.filter_cons]
    simp only [hbelow, if_true]
    rw [← dirContents, dirContents_removeAllFS]
  · rw [honce, hrm]
  · rw [honce]
    conv_lhs => rw [resetState_trace_of_success env s hok]
    simp only [fsAfter, List.foldl, applyEvent]
    rw [hrm]
    exact resetConfigFS_removeAllFS config _ _ fs hbelow

theorem resetState_idempotent_witness :
    dirContents "/home/dev/.ksync/syncthing"
        (fsAfter "<configuration/>" staleFS (resetState sampleEnv NewSyncthing).trace) =
      [("/home/dev/.ksync/syncthing/config.xml", "<configuration/>")] ∧
    fsAfter "<configuration/>"
        (fsAfter "<configuration/>" staleFS (resetState sampleEnv NewSyncthing).trace)
        (resetState sampleEnv NewSyncthing).trace =
      fsAfter "<configuration/>" staleFS (resetState sampleEnv NewSyncthing).trace :=
  have h := resetState_idempotent sampleEnv NewSyncthing "<configuration/>" staleFS
    (by decide) (by decide)
  ⟨h.1, h.2.2⟩

/-- Claim C12: each of the 23 generated getters, on `SpecList`, `Spec`,
`SpecDetails`, `ServiceList`, `Service`, `RemoteContainer` and `Syncthing`,
returns exactly the stored field on a non-nil message and the default of the
field type on a nil message: the empty string, false, or nil for a nested
message, a map or a list.  It never fails and reads nothing else. -/
theorem getters_default_on_nil :
    (∀ m : Proto.SpecList, Proto.SpecList.GetItems (some m) = m.Items) ∧
    Proto.SpecList.GetItems none = none ∧
    (∀ m : Proto.Spec, Proto.Spec.GetDetails (some m) = m.Details) ∧
    Proto.Spec.GetDetails none = none ∧
    (∀ m : Proto.Spec, Proto.Spec.GetServices (some m) = m.Services) ∧
    Proto.Spec.GetServices none = none ∧
    (∀ m : Proto.Spec, Proto.Spec.GetStatus (some m) = m.Status) ∧
    Proto.Spec.GetStatus none = "" ∧
    (∀ m : Proto.SpecDetails, Proto.SpecDetails.GetName (some m) = m.Name) ∧
    Proto.SpecDetails.GetName none = "" ∧
    (∀ m : Proto.SpecDetails, Proto.SpecDetails.GetContainerName (some m) = m.ContainerName) ∧
    Proto.SpecDetails.GetContainerName none = "" ∧
    (∀ m : Proto.SpecDetails, Proto.SpecDetails.GetPodName (some m) = m.PodName) ∧
    Proto.SpecDetails.GetPodName none = "" ∧
    (∀ m : Proto.SpecDetails, Proto.SpecDetails.GetSelector (some m) = m.Selector) ∧
    Proto.SpecDetails.GetSelector none = "" ∧
    (∀ m : Proto.SpecDetails, Proto.SpecDetails.GetNamespace (some m) = m.Namespace) ∧
    Proto.SpecDetails.GetNamespace none = "" ∧
    (∀ m : Proto.SpecDetails, Proto.SpecDetails.GetLocalPath (some m) = m.LocalPath) ∧
    Proto.SpecDetails.GetLocalPath none = "" ∧
    (∀ m : Proto.SpecDetails, Proto.SpecDetails.GetRemotePath (some m) = m.RemotePath) ∧
    Proto.SpecDetails.GetRemotePath none = "" ∧
    (∀ m : Proto.SpecDetails, Proto.SpecDetails.GetReload (some m) = m.Reload) ∧
    Proto.SpecDetails.GetReload none = false ∧
    (∀ m : Proto.SpecDetails, Proto.SpecDetails.GetLocalReadOnly (some m) = m.LocalReadOnly) ∧
    Proto.SpecDetails.GetLocalReadOnly none = false ∧
    (∀ m : Proto.SpecDetails, Proto.SpecDetails.GetRemoteReadOnly (some m) = m.RemoteReadOnly) ∧
    Proto.SpecDetails.GetRemoteReadOnly none = false ∧
    (∀ m : Proto.ServiceList, Proto.ServiceList.GetItems (some m) = m.Items) ∧
    Proto.ServiceList.GetItems none = none ∧
    (∀ m : Proto.Service, Proto.Service.GetSpecDetails (some m) = m.SpecDetails) ∧
    Proto.Service.GetSpecDetails none = none ∧
    (∀ m : Proto.Service, Proto.Service.GetRemoteContainer (some m) = m.RemoteContainer) ∧
    Proto.Service.GetRemoteContainer none = none ∧
    (∀ m : Proto.Service, Proto.Service.GetStatus (some m) = m.Status) ∧
    Proto.Service.GetStatus none = "" ∧
    (∀ m : Proto.RemoteContainer, Proto.RemoteContainer.GetId (some m) = m.Id) ∧
    Proto.RemoteContainer.GetId none = "" ∧
    (∀ m : Proto.RemoteContainer, Proto.RemoteContainer.GetContainerName (some m) = m.ContainerName) ∧
    Proto.RemoteContainer.GetContainerName none = "" ∧
    (∀ m : Proto.RemoteContainer, Proto.RemoteContainer.GetNodeName (some m) = m.NodeName) ∧
    Proto.RemoteContainer.GetNodeName none = "" ∧
    (∀ m : Proto.RemoteContainer, Proto.RemoteContainer.GetPodName (some m) = m.PodName) ∧
    Proto.RemoteContainer.GetPodName none = "" ∧
    (∀ m : Proto.Syncthing, Proto.Syncthing.GetUrl (some m) = m.Url) ∧
    Proto.Syncthing.GetUrl none = "" :=
  ⟨fun _ => rfl, rfl, fun _ => rfl, rfl, fun _ => rfl, rfl, fun _ => rfl, rfl, fun _ => rfl,
    rfl, fun _ => rfl, rfl, fun _ => rfl, rfl, fun _ => rfl, rfl, fun _ => rfl, rfl,
    fun _ => rfl, rfl, fun _ => rfl, rfl, fun _ => rfl, rfl, fun _ => rfl, rfl, fun _ => rfl,
    rfl, fun _ => rfl, rfl, fun _ => rfl, rfl, fun _ => rfl, rfl, fun _ => rfl, rfl,
    fun _ => rfl, rfl, fun _ => rfl, rfl, fun _ => rfl, rfl, fun _ => rfl, rfl, fun _ => rfl,
    rfl⟩

/-- Claim C13: `HasBinary()` checks and `resetState()` resets paths built on
`cli.ConfigPath()`, while `Run()` launches the executable and passes the
-home directory built on the directory of the configuration file in use.
When the two bases are equal, every process start of `Run()` launches
exactly the path `HasBinary()` checked, and its -home argument is the
directory that the reset removed and in which it regenerated `config.xml`.
Without the equality they can differ, as they do in `splitConfigEnv`. -/
theorem Run_paths_agree_of_base (env : Env) (s : Syncthing) :
    (∀ path args, Event.start path args ∈ (Run env s).trace →
      env.Stat (env.Join [env.ConfigPath, "bin", "syncthing"]) = none ∧
      Event.removeAll (env.Join [env.ConfigPath, "syncthing"]) ∈ (Run env s).trace ∧
      Event.resetConfig
        (env.Join [env.Join [env.ConfigPath, "syncthing"], "config.xml"]) ∈
          (Run env s).trace ∧
      path = env.Join [env.Dir env.ConfigFileUsed, "bin", "syncthing"] ∧
      args = path ::
        ["-gui-address", "localhost:" ++ fmtD (env.GetInt "syncthing-port"),
          "-gui-apikey", env.GetString "apikey",
          "-home", env.Join [env.Dir env.ConfigFileUsed, "syncthing"], "-no-browser"]) ∧
    (env.ConfigPath = env.Dir env.ConfigFileUsed →
      runPath env = binPath env s ∧
      ∀ path args, Event.start path args ∈ (Run env s).trace →
        path = binPath env s ∧
        env.Stat path = none ∧
        ∃ home : String,
          args = path ::
            ["-gui-address", "localhost:" ++ fmtD (env.GetInt "syncthing-port"),
              "-gui-apikey", env.GetString "apikey", "-home", home, "-no-browser"] ∧
          Event.removeAll home ∈ (Run env s).trace ∧
          Event.resetConfig (env.Join [home, "config.xml"]) ∈ (Run env s).trace) ∧
    (splitConfigEnv.ConfigPath ≠ splitConfigEnv.Dir splitConfigEnv.ConfigFileUsed ∧
      runPath splitConfigEnv ≠ binPath splitConfigEnv NewSyncthing ∧
      Event.start "/home/dev/.ksync/bin/syncthing"
          ["/home/dev/.ksync/bin/syncthing", "-gui-address", "localhost:8384",
            "-gui-apikey", "ksync", "-home", "/home/dev/.ksync/syncthing", "-no-browser"] ∈
        (Run splitConfigEnv NewSyncthing).trace ∧
      Event.removeAll "/etc/ksync/syncthing" ∈ (Run splitConfigEnv NewSyncthing).trace ∧
      Event.removeAll "/home/dev/.ksync/syncthing" ∉
        (Run splitConfigEnv NewSyncthing).trace) := by
  have key : ∀ path args, Event.start path args ∈ (Run env s).trace →
      env.Stat (env.Join [env.ConfigPath, "bin", "syncthing"]) = none ∧
      Event.removeAll (env.Join [env.ConfigPath, "syncthing"]) ∈ (Run env s).trace ∧
      Event.resetConfig
        (env.Join [env.Join [env.ConfigPath, "syncthing"], "config.xml"]) ∈
          (Run env s).trace ∧
      path = env.Join [env.Dir env.ConfigFileUsed, "bin", "syncthing"] ∧
      args = path ::
        ["-gui-address", "localhost:" ++ fmtD (env.GetInt "syncthing-port"),
          "-gui-apikey", env.GetString "apikey",
          "-home", env.Join [env.Dir env.ConfigFileUsed, "syncthing"], "-no-browser"] := by
    intro path args hmem
    obtain ⟨hbin, _, hrm, hrc⟩ := Run_reset_events_of_start env s path args hmem
    obtain ⟨hpath, hargs⟩ := Run_start_event env s path args hmem
    have hstat : env.Stat (env.Join [env.ConfigPath, "bin", "syncthing"]) = none := by
      simp only [HasBinary, binPath] at hbin
      cases hst : env.Stat (env.Join [env.ConfigPath, "bin", "syncthing"]) with
      | none => rfl
      | some err => simp [hst] at hbin
    refine ⟨hstat, hrm, hrc, hpath, ?_⟩
    rw [hargs, hpath]
    rfl
  refine ⟨key, ?_, by decide⟩
  intro hbase
  have hrun : runPath env = binPath env s := by
    simp only [runPath, binPath, hbase]
  refine ⟨hrun, ?_⟩
  intro path args hmem
  obtain ⟨hstat, hrm, hrc, hpath, hargs⟩ := key path args hmem
  have hp : path = binPath env s := by
    rw [hpath, ← hrun]
    rfl
  refine ⟨hp, ?_, env.Join [env.ConfigPath, "syncthing"], ?_, hrm, hrc⟩
  · rw [hp]
    exact hstat
  · rw [hargs, hbase]

theorem Run_paths_agree_of_base_witness :
    runPath sampleEnv = binPath sampleEnv NewSyncthing ∧
    (∃ home : String,
      ["/home/dev/.ksync/bin/syncthing", "-gui-address", "localhost:8384",
          "-gui-apikey", "ksync", "-home", "/home/dev/.ksync/syncthing", "-no-browser"] =
        "/home/dev/.ksync/bin/syncthing" ::
          ["-gui-address", "localhost:" ++ fmtD (sampleEnv.GetInt "syncthing-port"),
            "-gui-apikey", sampleEnv.GetString "apikey", "-home", home, "-no-browser"] ∧
      Event.removeAll home ∈ (Run sampleEnv NewSyncthing).trace ∧
      Event.resetConfig (sampleEnv.Join [home, "config.xml"]) ∈
        (Run sampleEnv NewSyncthing).trace) :=
  have h := (Run_paths_agree_of_base sampleEnv NewSyncthing).2.1 (by decide)
  ⟨h.1, (h.2 "/home/dev/.ksync/bin/syncthing"
    ["/home/dev/.ksync/bin/syncthing", "-gui-address", "localhost:8384",
      "-gui-apikey", "ksync", "-home", "/home/dev/.ksync/syncthing", "-no-browser"]
    (by decide)).2.2⟩

end Ksync
